import Mathlib

/-!
Verification of `lib/iris/aux_factory.py` (derived-coordinate factories).

The Python module is shallowly embedded below:

* NumPy n-dimensional arrays are modelled by `NDArray`: a shape together
  with a total data function from multi-indices to integer values.  `transpose`,
  the in-place `.shape = ...` assignment and `reshape` are modelled with
  their row-major (C-order) value semantics.
* Python exceptions are modelled by `PyError` and fallible code returns
  `Except PyError _`.
* `LazyArray`, the two factory classes and their methods are translated
  function by function from the source; Python object identity of
  coordinates is modelled by an `id` field.
-/

namespace Iris

/-- Python exception kinds relevant to `aux_factory.py`. -/
inductive PyError where
  | valueError (msg : String)
  | nameError (msg : String)
  | attributeError (msg : String)
deriving DecidableEq, Repr

/-- Model of a `cf_units`-style unit object: a physical dimension family
(e.g. "length", "pressure", "" for dimensionless) plus a scale factor that
distinguishes convertible-but-unequal units (such as metres and feet). -/
structure Units where
  dim : String
  scale : ℤ
deriving DecidableEq, Repr

/-- `units.is_dimensionless()`. -/
def Units.is_dimensionless (u : Units) : Bool := u.dim == ""

/-- `units.is_convertible(other)`: convertibility is sameness of the
physical dimension family. -/
def Units.is_convertible (u : Units) (other : Units) : Bool := u.dim == other.dim

/-- The unit "m". -/
def metre : Units := { dim := "length", scale := 1 }

/-- The unit "Pa". -/
def pascal : Units := { dim := "pressure", scale := 1 }

/-- An n-dimensional array: a shape plus its values as a total function of
the multi-index.  Only in-range indices are meaningful. -/
structure NDArray where
  shape : List Nat
  data : List Nat → ℤ

/-- A dependency coordinate (external `iris.coords.Coord`): points of shape
`shape`, optional bounds with `nbounds` values per point stored as one
extra trailing axis, units, and a Python object identity `id`. -/
structure Coord where
  id : Nat
  shape : List Nat
  pointsData : List Nat → ℤ
  nbounds : Nat
  boundsData : List Nat → ℤ
  units : Units

/-- `coord.points` as an `NDArray`. -/
def Coord.pointsArr (c : Coord) : NDArray := { shape := c.shape, data := c.pointsData }

/-- `coord.bounds` as an `NDArray` (shape with the extra trailing bounds axis). -/
def Coord.boundsArr (c : Coord) : NDArray :=
  { shape := c.shape ++ [c.nbounds], data := c.boundsData }

/-- Row-major (C-order) flat position of a multi-index within a shape. -/
def rowMajor (shape idx : List Nat) : Nat :=
  (shape.zip idx).foldl (fun acc p => acc * p.1 + p.2) 0

/-- Inverse of `rowMajor`: the multi-index of flat position `n` within
`shape` (row-major). -/
def unflatten : List Nat → Nat → List Nat
  | [], _ => []
  | s :: rest, n => (n / rest.prod % s) :: unflatten rest n

/-- `list.index(x)` for a list of naturals that is known to contain `x`. -/
def indexOfNat (x : Nat) : List Nat → Nat
  | [] => 0
  | y :: ys => if y = x then 0 else indexOfNat x ys + 1

/-- `ndarray.transpose(order)`: axis `k` of the result is axis `order[k]`
of the source, so a source axis `m` is read at result position
`order.index(m)`. -/
def transpose (a : NDArray) (order : List Nat) : NDArray :=
  { shape := order.map (fun k => a.shape.getD k 0)
    data := fun idx =>
      a.data ((List.range a.shape.length).map fun m => idx.getD (indexOfNat m order) 0) }

/-- The in-place `arr.shape = ns` assignment (and, value-wise, `reshape`):
the row-major readout is unchanged, only the shape changes. -/
def setShape (a : NDArray) (ns : List Nat) : NDArray :=
  { shape := ns, data := fun idx => a.data (unflatten a.shape (rowMajor ns idx)) }

/-- `arr.reshape(None)`: NumPy's dimension converter treats `None` as the
empty shape `()`, which succeeds only for single-element arrays. -/
def reshapeNone (a : NDArray) : Except PyError NDArray :=
  if a.shape.prod = 1 then .ok (setShape a [])
  else .error (.valueError "total size of new array must be unchanged")

/-- Stable insertion by key: walk past strictly smaller keys, so earlier
elements stay before equal-keyed later ones (like Python's stable `sorted`). -/
def insertByKey (key : α → Nat) (x : α) : List α → List α
  | [] => [x]
  | y :: ys => if key y < key x then y :: insertByKey key x ys else x :: y :: ys

/-- Stable sort by key, modelling Python's `sorted(..., key=...)`. -/
def sortByKey (key : α → Nat) : List α → List α
  | [] => []
  | x :: xs => insertByKey key x (sortByKey key xs)

/-- Collapse adjacent duplicates of a sorted list; composed with
`sortByKey id` this models `sorted(set(...))`. -/
def dedupSorted : List Nat → List Nat
  | [] => []
  | [x] => [x]
  | x :: y :: r => if x = y then dedupSorted (y :: r) else x :: dedupSorted (y :: r)

/-- NumPy broadcasting of two reversed shapes (least-significant axis first). -/
def bshapesR : List Nat → List Nat → Option (List Nat)
  | [], ys => some ys
  | xs, [] => some xs
  | x :: xs, y :: ys =>
    match bshapesR xs ys with
    | none => none
    | some rest =>
      if x = y then some (x :: rest)
      else if x = 1 then some (y :: rest)
      else if y = 1 then some (x :: rest)
      else none

/-- NumPy broadcasting of two shapes. -/
def broadcastShapes (a b : List Nat) : Option (List Nat) :=
  (bshapesR a.reverse b.reverse).map List.reverse

/-- Index an operand of shape `s` from a broadcast result index `idx`:
right-align, then clamp size-1 axes to position 0. -/
def bindex (s idx : List Nat) : List Nat :=
  (s.zip (idx.drop (idx.length - s.length))).map (fun p => if p.1 = 1 then 0 else p.2)

/-- A binary elementwise NumPy operation with broadcasting. -/
def ewise (op : ℤ → ℤ → ℤ) (a b : NDArray) : Except PyError NDArray :=
  match broadcastShapes a.shape b.shape with
  | none => .error (.valueError "operands could not be broadcast together")
  | some s => .ok { shape := s
                    data := fun idx => op (a.data (bindex a.shape idx)) (b.data (bindex b.shape idx)) }

/-- `LazyArray`: declared shape, the producer `_func` (deleted after first
use, hence an `Option`), and the cached `_array`.  The producer models a
Python function: it may raise, and may return `None`. -/
structure LazyArray (α : Type) where
  shape : List Nat
  func : Option (Unit → Except PyError (Option α))
  arr : Option α

/-- `LazyArray.__init__(shape, func)`. -/
def LazyArray.make (shape : List Nat) (f : Unit → Except PyError (Option α)) : LazyArray α :=
  { shape := shape, func := some f, arr := none }

/-- `LazyArray._cached_array()`: on first access call `_func`, store the
result and delete `_func`; afterwards return the stored array.  Returns the
produced value together with the post-call object state. -/
def LazyArray.cachedArray (la : LazyArray α) : Except PyError (Option α × LazyArray α) :=
  match la.arr with
  | some a => .ok (some a, la)
  | none =>
    match la.func with
    | none => .error (.attributeError "LazyArray instance has no attribute _func")
    | some f =>
      match f () with
      | .error e => .error e
      | .ok v => .ok (v, { la with arr := v, func := none })

/-- Whether a `_cached_array` call on this state would invoke the producer. -/
def LazyArray.invokes (la : LazyArray α) : Bool := la.arr.isNone && la.func.isSome

/-- A sequence of `k` value accesses: the produced values, the final object
state, and how many times the producer was invoked along the way. -/
def LazyArray.accessSeq : Nat → LazyArray α → Except PyError (List (Option α) × LazyArray α × Nat)
  | 0, la => .ok ([], la, 0)
  | k + 1, la =>
    match la.cachedArray with
    | .error e => .error e
    | .ok (v, la2) =>
      match accessSeq k la2 with
      | .error e => .error e
      | .ok (vs, la3, c) => .ok (v :: vs, la3, (if la.invokes then 1 else 0) + c)

/-- `LazyArray.view()`: force materialization and return the underlying
array (a no-argument view is value-equal to the array itself). -/
def LazyArray.view (la : LazyArray NDArray) : Except PyError (NDArray × LazyArray NDArray) :=
  match la.cachedArray with
  | .error e => .error e
  | .ok (some a, la2) => .ok (a, la2)
  | .ok (none, _) => .error (.attributeError "NoneType object has no attribute view")

/-- `LazyArray.reshape(ns)`: force materialization and reshape the
underlying array. -/
def LazyArray.reshapeL (la : LazyArray NDArray) (ns : List Nat) :
    Except PyError (NDArray × LazyArray NDArray) :=
  match la.cachedArray with
  | .error e => .error e
  | .ok (some a, la2) =>
    if a.shape.prod = ns.prod then .ok (setShape a ns, la2)
    else .error (.valueError "total size of new array must be unchanged")
  | .ok (none, _) => .error (.attributeError "NoneType object has no attribute reshape")

/-- `AuxCoordFactory._nd_points` / `_nd_bounds` transpose order:
`sorted(enumerate(dims), key=lambda pair: pair[1])`, then first components. -/
def transposeOrder (dims : List Nat) : List Nat :=
  (sortByKey (fun p => p.2) dims.enum).map Prod.fst

/-- The loop `for dim, size in zip(dims, coord.shape): nd_shape[dim] = size`. -/
def setDims (base : List Nat) (dims sizes : List Nat) : List Nat :=
  (dims.zip sizes).foldl (fun acc p => acc.set p.1 p.2) base

/-- `AuxCoordFactory._nd_points(coord, dims, ndim)`. -/
def ndPoints (c : Coord) (dims : List Nat) (ndim : Nat) : NDArray :=
  let points := c.pointsArr
  let points := if dims.isEmpty then points else transpose points (transposeOrder dims)
  let ndShape := setDims (List.replicate ndim 1) dims c.shape
  setShape points ndShape

/-- `AuxCoordFactory._nd_bounds(coord, dims, ndim)`: same reordering with
the bounds axis appended to the transpose order and to the target shape. -/
def ndBounds (c : Coord) (dims : List Nat) (ndim : Nat) : NDArray :=
  let order := transposeOrder dims ++ [dims.length]
  let bounds := c.boundsArr
  let bounds := if dims.isEmpty then bounds else transpose bounds order
  let ndShape := setDims (List.replicate ndim 1 ++ [c.nbounds]) dims c.shape
  setShape bounds ndShape

/-- The per-dependency body of `AuxCoordFactory._remap`: full-rank points
remap, then narrowing to the derived dimensions; an absent dependency is
the scalar `np.float16(0)`. -/
def remapDep (c : Option Coord) (dims : List Nat) (derived : List Nat) (ndim : Nat) : NDArray :=
  match c with
  | none => { shape := [], data := fun _ => 0 }
  | some coord =>
    let nd := ndPoints coord dims ndim
    let shape := derived.map (fun d => nd.shape.getD d 0) ++ (if derived.isEmpty then [1] else [])
    setShape nd shape

/-- The per-dependency body of `AuxCoordFactory._remap_with_bounds`. -/
def remapDepB (c : Option Coord) (dims : List Nat) (derived : List Nat) (ndim : Nat) : NDArray :=
  match c with
  | none => { shape := [], data := fun _ => 0 }
  | some coord =>
    let nd := if coord.nbounds != 0 then ndBounds coord dims ndim else ndPoints coord dims ndim
    let core := derived.map (fun d => nd.shape.getD d 0) ++ (if derived.isEmpty then [1] else [])
    let shape := core ++ [if coord.nbounds != 0 then nd.shape.getLastD 1 else 1]
    setShape nd shape

/-- `ndim = max(derived_dims) + 1 if derived_dims else 1`. -/
def ndimOf (derived : List Nat) : Nat :=
  match derived with
  | [] => 1
  | _ => derived.foldl Nat.max 0 + 1

/-- One step of `AuxCoordFactory._shape`: `if size > 1: shape[i] = size`. -/
def overrideShape (shape other : List Nat) : List Nat :=
  other.enum.foldl (fun acc p => if p.2 > 1 then acc.set p.1 p.2 else acc) shape

/-- `AuxCoordFactory._shape(nd_values_by_key)`: sort the operands by rank,
start from the shape of the highest-rank one, and let any axis of size > 1
of the others override. -/
def reconcileShape (vals : List NDArray) : List Nat :=
  let sorted := sortByKey (fun a => a.shape.length) vals
  match sorted.getLast? with
  | none => []
  | some top => sorted.dropLast.foldl (fun acc a => overrideShape acc a.shape) top.shape

/-- `AuxCoordFactory.derived_dims(coord_dims_func)` restricted to the present
dependencies: the sorted, deduplicated union of their dimension indices. -/
def derivedDims (coords : List Coord) (f : Coord → List Nat) : List Nat :=
  dedupSorted (sortByKey id (coords.map f).flatten)

/-- The derived coordinate handed back by `make_coord`
(external `iris.coords.AuxCoord` constructor). -/
structure AuxCoord where
  points : LazyArray NDArray
  bounds : Option (LazyArray NDArray)
  standard_name : Option String
  long_name : Option String
  var_name : Option String
  units : Units
  attributes : List (String × String)

/-- `HybridHeightFactory` state: the three dependency roles plus the
metadata set by `__init__`. -/
structure HybridHeightFactory where
  delta : Option Coord
  sigma : Option Coord
  orography : Option Coord
  standard_name : String
  units : Units
  attributes : List (String × String)
  long_name : Option String
  var_name : Option String

/-- `delta and delta.nbounds not in (0, 2)` — present with a bounds count
other than 0 or 2. -/
def badBoundsCount (c : Option Coord) : Bool :=
  c.any (fun x => !(x.nbounds == 0 || x.nbounds == 2))

/-- `HybridHeightFactory.__init__(delta, sigma, orography)`.  A bounded
orography only triggers a warning, which has no effect on the result. -/
def hybridHeightFactoryInit (delta sigma orography : Option Coord) :
    Except PyError HybridHeightFactory :=
  if badBoundsCount delta then
    .error (.valueError "Invalid delta coordinate: must have either 0 or 2 bounds.")
  else if badBoundsCount sigma then
    .error (.valueError "Invalid sigma coordinate: must have either 0 or 2 bounds.")
  else if delta.isNone && orography.isNone then
    .error (.valueError "Unable to determine units: no delta or orography available.")
  else if delta.any (fun dc => orography.any (fun oc => dc.units != oc.units)) then
    .error (.valueError "Incompatible units: delta and orography must have the same units.")
  else
    let units := match delta with
      | some dc => dc.units
      | none => match orography with
        | some oc => oc.units
        | none => { dim := "", scale := 0 }
    if !(units.is_convertible metre) then
      .error (.valueError "Invalid units: delta and/or orography must be expressed in length units.")
    else
      .ok { delta := delta, sigma := sigma, orography := orography,
            standard_name := "altitude", units := units,
            attributes := [("positive", "up")], long_name := none, var_name := none }

/-- `HybridHeightFactory._derive(delta, sigma, orography)`:
`delta + sigma * orography`. -/
def hhDerive (delta sigma orography : NDArray) : Except PyError NDArray := do
  let t ← ewise (· * ·) sigma orography
  ewise (· + ·) delta t

/-- `shape[-1:]` of a shape list. -/
def lastSlice (s : List Nat) : List Nat := s.drop (s.length - 1)

/-- The `calc_bounds` closure of `HybridHeightFactory.make_coord`, returning
the warnings it emits alongside its result.  On the disregard path the
source computes `orography_pts.reshape(orography_pts_shape.append(1))`;
`list.append` returns `None`, so `reshape` receives `None`. -/
def hhCalcBounds (delta sigma orography orography_pts : NDArray) :
    List String × Except PyError NDArray :=
  if lastSlice delta.shape ∉ [([] : List Nat), [1], [2]] then
    ([], .error (.valueError "Invalid delta coordinate bounds."))
  else if lastSlice sigma.shape ∉ [([] : List Nat), [1], [2]] then
    ([], .error (.valueError "Invalid sigma coordinate bounds."))
  else if lastSlice orography.shape ∉ [([] : List Nat), [1]] then
    (["Orography coordinate has bounds. These are being disregarded."],
      match reshapeNone orography_pts with
      | .error e => .error e
      | .ok o => hhDerive delta sigma o)
  else
    ([], hhDerive delta sigma orography)

/-- `derived_dims` as used by `HybridHeightFactory.make_coord`. -/
def hhDerivedDims (fac : HybridHeightFactory) (f : Coord → List Nat) : List Nat :=
  derivedDims ([fac.delta, fac.sigma, fac.orography].filterMap id) f

/-- `nd_points_by_key` of `HybridHeightFactory.make_coord` (delta, sigma,
orography). -/
def hhNdPointsByKey (fac : HybridHeightFactory) (f : Coord → List Nat) :
    NDArray × NDArray × NDArray :=
  let derived := hhDerivedDims fac f
  let ndim := ndimOf derived
  (remapDep fac.delta ((fac.delta.map f).getD []) derived ndim,
   remapDep fac.sigma ((fac.sigma.map f).getD []) derived ndim,
   remapDep fac.orography ((fac.orography.map f).getD []) derived ndim)

/-- `nd_values_by_key` of `HybridHeightFactory.make_coord`. -/
def hhNdValuesByKey (fac : HybridHeightFactory) (f : Coord → List Nat) :
    NDArray × NDArray × NDArray :=
  let derived := hhDerivedDims fac f
  let ndim := ndimOf derived
  (remapDepB fac.delta ((fac.delta.map f).getD []) derived ndim,
   remapDepB fac.sigma ((fac.sigma.map f).getD []) derived ndim,
   remapDepB fac.orography ((fac.orography.map f).getD []) derived ndim)

/-- The `calc_points` closure of `HybridHeightFactory.make_coord`. -/
def hhCalcPoints (fac : HybridHeightFactory) (f : Coord → List Nat) : Except PyError NDArray :=
  hhDerive (hhNdPointsByKey fac f).1 (hhNdPointsByKey fac f).2.1 (hhNdPointsByKey fac f).2.2

/-- `HybridHeightFactory.make_coord(coord_dims_func)`. -/
def hhMakeCoord (fac : HybridHeightFactory) (f : Coord → List Nat) : AuxCoord :=
  let ndp := hhNdPointsByKey fac f
  let points := LazyArray.make (reconcileShape [ndp.1, ndp.2.1, ndp.2.2])
    (fun _ => (hhCalcPoints fac f).map some)
  let bounds :=
    if fac.delta.any (fun c => c.nbounds != 0) || fac.sigma.any (fun c => c.nbounds != 0) then
      let ndv := hhNdValuesByKey fac f
      some (LazyArray.make (reconcileShape [ndv.1, ndv.2.1, ndv.2.2])
        (fun _ => ((hhCalcBounds ndv.1 ndv.2.1 ndv.2.2 ndp.2.2).2).map some))
    else none
  { points := points, bounds := bounds,
    standard_name := some fac.standard_name, long_name := fac.long_name,
    var_name := fac.var_name, units := fac.units, attributes := fac.attributes }

/-- `self.x is old_coord` for a role slot, via object identity. -/
def roleIs (slot : Option Coord) (old : Coord) : Bool :=
  slot.any (fun c => c.id == old.id)

/-- `HybridHeightFactory.update(old_coord, new_coord)`: an if/elif chain on
identity; replacing delta or sigma with a badly-bounded coordinate raises,
a bounded new orography only warns. -/
def hhUpdate (fac : HybridHeightFactory) (old : Coord) (new : Option Coord) :
    Except PyError HybridHeightFactory :=
  if roleIs fac.delta old then
    if new.any (fun c => !(c.nbounds == 0 || c.nbounds == 2)) then
      .error (.valueError "Invalid delta coordinate: must have either 0 or 2 bounds.")
    else .ok { fac with delta := new }
  else if roleIs fac.sigma old then
    if new.any (fun c => !(c.nbounds == 0 || c.nbounds == 2)) then
      .error (.valueError "Invalid sigma coordinate: must have either 0 or 2 bounds.")
    else .ok { fac with sigma := new }
  else if roleIs fac.orography old then
    .ok { fac with orography := new }
  else .ok fac

/-- `HybridPressureFactory` state. -/
structure HybridPressureFactory where
  delta : Option Coord
  sigma : Option Coord
  surface_air_pressure : Option Coord
  reference_air_pressure : Option Coord
  standard_name : String
  attributes : List (String × String)
  long_name : Option String
  var_name : Option String

/-- The `HybridPressureFactory.units` property: delta's units if delta is
present, else the surface pressure's. -/
def hpUnits (fac : HybridPressureFactory) : Units :=
  match fac.delta with
  | some d => d.units
  | none => ((fac.surface_air_pressure.map Coord.units)).getD { dim := "", scale := 0 }

/-- `HybridPressureFactory._check_dependencies`.  The bounded-surface and
bounded-reference warnings have no effect on the result and are omitted.
The method's final statement is `self.attributes = {}`, but the method is a
`@staticmethod` with no `self` in scope, so reaching it raises `NameError`;
hence this function never returns successfully. -/
def hpCheckDependencies (delta sigma surface_air_pressure reference_air_pressure : Option Coord) :
    Except PyError Unit :=
  if delta.isNone && (sigma.isNone || surface_air_pressure.isNone) then
    .error (.valueError "Unable to contruct hybrid pressure coordinate factory due to insufficient source coordinates.")
  else if badBoundsCount delta then
    .error (.valueError "Invalid delta coordinate: must have either 0 or 2 bounds.")
  else if badBoundsCount sigma then
    .error (.valueError "Invalid sigma coordinate: must have either 0 or 2 bounds.")
  else if sigma.any (fun c => !c.units.is_dimensionless) then
    .error (.valueError "Invalid units: sigma must be dimensionless.")
  else
    let unitsStep : Except PyError Unit :=
      let units := match reference_air_pressure with
        | some r => r.units
        | none => match delta with
          | some d => d.units
          | none => ((surface_air_pressure.map Coord.units)).getD { dim := "", scale := 0 }
      if !(units.is_convertible pascal) then
        .error (.valueError "Invalid units: delta, surface_air_pressure and/or reference_air_pressure must have units of pressure.")
      else
        .error (.nameError "global name self is not defined")
    match reference_air_pressure with
    | none =>
      if delta.any (fun d => surface_air_pressure.any (fun s => d.units != s.units)) then
        .error (.valueError "Incompatible units: delta and surface_air_pressure must have the same units.")
      else unitsStep
    | some r =>
      if surface_air_pressure.any (fun s => s.units != r.units) then
        .error (.valueError "Incompatible units: surface_air_pressure and reference_air_pressure must have the same units.")
      else if delta.any (fun d => !d.units.is_dimensionless) then
        .error (.valueError "Incompatible units: delta must be dimensionless if reference_air_pressure is specified")
      else unitsStep

/-- `HybridPressureFactory.__init__`: validate, then store the roles and
the fixed metadata. -/
def hybridPressureFactoryInit (delta sigma surface_air_pressure reference_air_pressure : Option Coord) :
    Except PyError HybridPressureFactory :=
  match hpCheckDependencies delta sigma surface_air_pressure reference_air_pressure with
  | .error e => .error e
  | .ok _ =>
    .ok { delta := delta, sigma := sigma,
          surface_air_pressure := surface_air_pressure,
          reference_air_pressure := reference_air_pressure,
          standard_name := "air_pressure", attributes := [],
          long_name := none, var_name := none }

/-- `HybridPressureFactory._derive`:
`delta * reference_air_pressure + sigma * surface_air_pressure`. -/
def hpDerive (delta sigma surface_air_pressure reference_air_pressure : NDArray) :
    Except PyError NDArray := do
  let a ← ewise (· * ·) delta reference_air_pressure
  let b ← ewise (· * ·) sigma surface_air_pressure
  ewise (· + ·) a b

/-- The `calc_bounds` closure of `HybridPressureFactory.make_coord`, with
its warnings.  Both disregard paths feed the `None` returned by
`list.append` into `reshape`, as in the hybrid-height case. -/
def hpCalcBounds (delta sigma surface reference surface_pts reference_pts : NDArray) :
    List String × Except PyError NDArray :=
  if lastSlice delta.shape ∉ [([] : List Nat), [1], [2]] then
    ([], .error (.valueError "Invalid delta coordinate bounds."))
  else if lastSlice sigma.shape ∉ [([] : List Nat), [1], [2]] then
    ([], .error (.valueError "Invalid sigma coordinate bounds."))
  else
    let w1 : List String :=
      if lastSlice surface.shape ∉ [([] : List Nat), [1]] then
        ["Surface pressure coordinate has bounds. These are being disregarded."]
      else []
    let surfStep : Except PyError NDArray :=
      if lastSlice surface.shape ∉ [([] : List Nat), [1]] then reshapeNone surface_pts
      else .ok surface
    match surfStep with
    | .error e => (w1, .error e)
    | .ok s =>
      let w2 : List String :=
        if lastSlice reference.shape ∉ [([] : List Nat), [1]] then
          ["Reference pressure coordinate has bounds. These are being disregarded."]
        else []
      let refStep : Except PyError NDArray :=
        if lastSlice reference.shape ∉ [([] : List Nat), [1]] then reshapeNone reference_pts
        else .ok reference
      match refStep with
      | .error e => (w1 ++ w2, .error e)
      | .ok r => (w1 ++ w2, hpDerive delta sigma s r)

/-- `derived_dims` as used by `HybridPressureFactory.make_coord`. -/
def hpDerivedDims (fac : HybridPressureFactory) (f : Coord → List Nat) : List Nat :=
  derivedDims
    ([fac.delta, fac.sigma, fac.surface_air_pressure, fac.reference_air_pressure].filterMap id) f

/-- `nd_points_by_key` of `HybridPressureFactory.make_coord` (delta, sigma,
surface, reference). -/
def hpNdPointsByKey (fac : HybridPressureFactory) (f : Coord → List Nat) :
    NDArray × NDArray × NDArray × NDArray :=
  let derived := hpDerivedDims fac f
  let ndim := ndimOf derived
  (remapDep fac.delta ((fac.delta.map f).getD []) derived ndim,
   remapDep fac.sigma ((fac.sigma.map f).getD []) derived ndim,
   remapDep fac.surface_air_pressure ((fac.surface_air_pressure.map f).getD []) derived ndim,
   remapDep fac.reference_air_pressure ((fac.reference_air_pressure.map f).getD []) derived ndim)

/-- `nd_values_by_key` of `HybridPressureFactory.make_coord`. -/
def hpNdValuesByKey (fac : HybridPressureFactory) (f : Coord → List Nat) :
    NDArray × NDArray × NDArray × NDArray :=
  let derived := hpDerivedDims fac f
  let ndim := ndimOf derived
  (remapDepB fac.delta ((fac.delta.map f).getD []) derived ndim,
   remapDepB fac.sigma ((fac.sigma.map f).getD []) derived ndim,
   remapDepB fac.surface_air_pressure ((fac.surface_air_pressure.map f).getD []) derived ndim,
   remapDepB fac.reference_air_pressure ((fac.reference_air_pressure.map f).getD []) derived ndim)

/-- The `calc_points` closure of `HybridPressureFactory.make_coord`. -/
def hpCalcPoints (fac : HybridPressureFactory) (f : Coord → List Nat) : Except PyError NDArray :=
  hpDerive (hpNdPointsByKey fac f).1 (hpNdPointsByKey fac f).2.1
    (hpNdPointsByKey fac f).2.2.1 (hpNdPointsByKey fac f).2.2.2

/-- `HybridPressureFactory.make_coord(coord_dims_func)`. -/
def hpMakeCoord (fac : HybridPressureFactory) (f : Coord → List Nat) : AuxCoord :=
  let ndp := hpNdPointsByKey fac f
  let points := LazyArray.make (reconcileShape [ndp.1, ndp.2.1, ndp.2.2.1, ndp.2.2.2])
    (fun _ => (hpCalcPoints fac f).map some)
  let bounds :=
    if fac.delta.any (fun c => c.nbounds != 0) || fac.sigma.any (fun c => c.nbounds != 0) then
      let ndv := hpNdValuesByKey fac f
      some (LazyArray.make (reconcileShape [ndv.1, ndv.2.1, ndv.2.2.1, ndv.2.2.2])
        (fun _ => ((hpCalcBounds ndv.1 ndv.2.1 ndv.2.2.1 ndv.2.2.2 ndp.2.2.1 ndp.2.2.2).2).map some))
    else none
  { points := points, bounds := bounds,
    standard_name := some fac.standard_name, long_name := fac.long_name,
    var_name := fac.var_name, units := hpUnits fac, attributes := fac.attributes }

/-- The `except ValueError` wrapper inside `HybridPressureFactory.update`:
a `ValueError` from `_check_dependencies` is re-raised with a prefix; any
other exception (the `NameError`) propagates unchanged. -/
def hpCheckWrapped (d s sp rp : Option Coord) : Except PyError Unit :=
  match hpCheckDependencies d s sp rp with
  | .ok u => .ok u
  | .error (PyError.valueError m) =>
    .error (PyError.valueError ("Failed to update dependencies. " ++ m))
  | .error e => .error e

/-- `HybridPressureFactory.update(old_coord, new_coord)`: iterate over the
snapshot of the dependency mapping (in the fixed order delta, sigma,
surface, reference); for each role holding `old_coord` by identity, write
`new_coord` into the prospective mapping, re-validate it, and on success
set the attribute. -/
def hpUpdate (fac : HybridPressureFactory) (old : Coord) (new : Option Coord) :
    Except PyError HybridPressureFactory := do
  let md := roleIs fac.delta old
  let ms := roleIs fac.sigma old
  let mp := roleIs fac.surface_air_pressure old
  let mr := roleIs fac.reference_air_pressure old
  let ndD := if md then new else fac.delta
  let fac1 ← if md then do
      let _ ← hpCheckWrapped ndD fac.sigma fac.surface_air_pressure fac.reference_air_pressure
      pure { fac with delta := new }
    else pure fac
  let ndS := if ms then new else fac.sigma
  let fac2 ← if ms then do
      let _ ← hpCheckWrapped ndD ndS fac.surface_air_pressure fac.reference_air_pressure
      pure { fac1 with sigma := new }
    else pure fac1
  let ndP := if mp then new else fac.surface_air_pressure
  let fac3 ← if mp then do
      let _ ← hpCheckWrapped ndD ndS ndP fac.reference_air_pressure
      pure { fac2 with surface_air_pressure := new }
    else pure fac2
  let ndR := if mr then new else fac.reference_air_pressure
  if mr then do
    let _ ← hpCheckWrapped ndD ndS ndP ndR
    pure { fac3 with reference_air_pressure := new }
  else pure fac3

/-- The array obtained by materializing a derived coordinate's points
(`None` when materialization raises or the producer returned `None`). -/
def materializedPoints (ac : AuxCoord) : Option NDArray :=
  match ac.points.cachedArray with
  | .ok (v, _) => v
  | .error _ => none

/-- The materialized value of a derived coordinate's points at one index. -/
def pointsValueAt (ac : AuxCoord) (idx : List Nat) : Option ℤ :=
  match ac.points.cachedArray with
  | .ok (some arr, _) => some (arr.data idx)
  | _ => none

/-- The disjunction of exactly the `ValueError` conditions of
`HybridPressureFactory._check_dependencies` (insufficient coordinates, bad
bounds counts, non-dimensionless sigma, the two unit-match rules, delta not
dimensionless alongside a reference, units not convertible to pressure). -/
def hpValidationRuleFails (delta sigma surface_air_pressure reference_air_pressure : Option Coord) : Bool :=
  (delta.isNone && (sigma.isNone || surface_air_pressure.isNone)) ||
  badBoundsCount delta || badBoundsCount sigma ||
  sigma.any (fun c => !c.units.is_dimensionless) ||
  (match reference_air_pressure with
   | none => delta.any (fun d => surface_air_pressure.any (fun s => d.units != s.units))
   | some r =>
     surface_air_pressure.any (fun s => s.units != r.units) ||
     delta.any (fun d => !d.units.is_dimensionless)) ||
  !((match reference_air_pressure with
     | some r => r.units
     | none => match delta with
       | some d => d.units
       | none => ((surface_air_pressure.map Coord.units)).getD { dim := "", scale := 0 }).is_convertible pascal)

/-- A dimensionless unit object. -/
def noUnit : Units := { dim := "", scale := 1 }

/-! Concrete inputs used by the counterexamples and witnesses. -/

/-- C1 input: a 1-point pressure-unit delta with value 2. -/
def c1delta : Coord := { id := 1, shape := [1], pointsData := fun _ => 2,
                         nbounds := 0, boundsData := fun _ => 0, units := pascal }

/-- C1 input: a 1-point dimensionless sigma with value 1. -/
def c1sigma : Coord := { id := 2, shape := [1], pointsData := fun _ => 1,
                         nbounds := 0, boundsData := fun _ => 0, units := noUnit }

/-- C1 input: a 1-point surface pressure with value 3. -/
def c1surf : Coord := { id := 3, shape := [1], pointsData := fun _ => 3,
                        nbounds := 0, boundsData := fun _ => 0, units := pascal }

/-- C1 input: a hybrid-pressure factory state with delta, sigma and surface
bound and no reference pressure. -/
def c1factory : HybridPressureFactory :=
  { delta := some c1delta, sigma := some c1sigma, surface_air_pressure := some c1surf,
    reference_air_pressure := none, standard_name := "air_pressure",
    attributes := [], long_name := none, var_name := none }

/-- C1 input: every coordinate lives on host dimension 0. -/
def c1dims : Coord → List Nat := fun _ => [0]

/-- C4 input: a 1-point dimensionless delta (required when a reference
pressure is present). -/
def c4delta : Coord := { id := 1, shape := [1], pointsData := fun _ => 1,
                         nbounds := 0, boundsData := fun _ => 0, units := noUnit }

/-- C4 input: a 1-point scalar reference pressure. -/
def c4reference : Coord := { id := 4, shape := [1], pointsData := fun _ => 100000,
                             nbounds := 0, boundsData := fun _ => 0, units := pascal }

/-- C4 input: a hybrid-pressure factory state with all four roles bound. -/
def c4factory : HybridPressureFactory :=
  { delta := some c4delta, sigma := some c1sigma, surface_air_pressure := some c1surf,
    reference_air_pressure := some c4reference, standard_name := "air_pressure",
    attributes := [], long_name := none, var_name := none }

/-- C7 input: an unbounded 2-point delta in metres. -/
def c7delta : Coord := { id := 1, shape := [2], pointsData := fun _ => 1,
                         nbounds := 0, boundsData := fun _ => 0, units := metre }

/-- C7 input: a 2-point orography carrying 2 bounds per point. -/
def c7orog : Coord := { id := 3, shape := [2], pointsData := fun _ => 5,
                        nbounds := 2, boundsData := fun l => (rowMajor [2, 2] l : ℤ),
                        units := metre }

/-- C7 input: a hybrid-height factory state whose only bounded dependency
is the orography. -/
def c7factory : HybridHeightFactory :=
  { delta := some c7delta, sigma := none, orography := some c7orog,
    standard_name := "altitude", units := metre,
    attributes := [("positive", "up")], long_name := none, var_name := none }

/-- C7 and C8 input: every coordinate lives on host dimension 0. -/
def c78dims : Coord → List Nat := fun _ => [0]

/-- C8 input: a 2-point delta carrying 2 bounds per point, in metres. -/
def c8delta : Coord := { id := 1, shape := [2], pointsData := fun l => 10 + (l.headD 0 : ℤ),
                         nbounds := 2, boundsData := fun l => (rowMajor [2, 2] l : ℤ),
                         units := metre }

/-- C8 input: a hybrid-height factory state with a bounded delta and a
bounded orography. -/
def c8factory : HybridHeightFactory :=
  { delta := some c8delta, sigma := none, orography := some c7orog,
    standard_name := "altitude", units := metre,
    attributes := [("positive", "up")], long_name := none, var_name := none }

/-- C8: the bounds lazy array produced by `make_coord`, with its
materialization outcome. -/
def c8boundsOutcome : Option (Except PyError (Option NDArray × LazyArray NDArray)) :=
  ((hhMakeCoord c8factory c78dims).bounds).map (fun la => la.cachedArray)

/-- C9 witness input: a producer returning a fixed 1-element array. -/
def c9producer : Unit → Except PyError (Option NDArray) :=
  fun _ => .ok (some { shape := [1], data := fun _ => 7 })

/-- C5 witness input: a (4,3) coordinate whose point value records its own
row-major position. -/
def c5coord : Coord := { id := 0, shape := [4, 3], pointsData := fun l => (rowMajor [4, 3] l : ℤ),
                         nbounds := 0, boundsData := fun _ => 0, units := metre }

/-- C6 witness input: a (70,) coordinate with 2 bounds per point whose
bound value records its own row-major position. -/
def c6coord : Coord := { id := 0, shape := [70], pointsData := fun _ => 0,
                         nbounds := 2, boundsData := fun l => (rowMajor [70, 2] l : ℤ),
                         units := metre }

/-- C3 witness input: a 2-point delta in metres. -/
def c3delta : Coord := { id := 1, shape := [2], pointsData := fun l => 10 + (l.headD 0 : ℤ),
                         nbounds := 0, boundsData := fun _ => 0, units := metre }

/-- C3 witness input: a 2-point dimensionless sigma. -/
def c3sigma : Coord := { id := 2, shape := [2], pointsData := fun l => 2 + (l.headD 0 : ℤ),
                         nbounds := 0, boundsData := fun _ => 0, units := noUnit }

/-- C3 witness input: a 2-point orography in metres. -/
def c3orog : Coord := { id := 3, shape := [2], pointsData := fun l => 100 * ((l.headD 0 : ℤ) + 1),
                        nbounds := 0, boundsData := fun _ => 0, units := metre }

/-- C3 witness input: every coordinate lives on host dimension 1. -/
def c3dims : Coord → List Nat := fun _ => [1]

/-- C10 witness input: a coordinate not bound to any role of the factories
used in the witness. -/
def c10old : Coord := { id := 99, shape := [1], pointsData := fun _ => 0,
                        nbounds := 0, boundsData := fun _ => 0, units := metre }

/-- C8 amended-claim witness input: a (2,2) bounds-remapped delta. -/
def c8wDelta : NDArray := { shape := [2, 2], data := fun _ => 1 }

/-- C8 amended-claim witness input: the scalar stand-in of an absent sigma. -/
def c8wSigma : NDArray := { shape := [], data := fun _ => 0 }

/-- C8 amended-claim witness input: a (2,2) bounds-remapped orography. -/
def c8wOrog : NDArray := { shape := [2, 2], data := fun _ => 5 }

/-- C8 amended-claim witness input: the 2-element points remap of that
orography. -/
def c8wOrogPts : NDArray := { shape := [2], data := fun _ => 5 }

/-! Theorems. -/

/-- A `LazyArray` that already holds a cached array returns it unchanged. -/
theorem cachedArray_of_cached (shape : List Nat) (a : α) :
    LazyArray.cachedArray { shape := shape, func := none, arr := some a } =
      .ok (some a, { shape := shape, func := none, arr := some a }) := rfl

/-- Any number of further accesses on a cached `LazyArray` return the cached
array and never invoke a producer. -/
theorem accessSeq_of_cached (shape : List Nat) (a : α) (k : Nat) :
    LazyArray.accessSeq k { shape := shape, func := none, arr := some a } =
      .ok (List.replicate k (some a),
           ({ shape := shape, func := none, arr := some a } : LazyArray α), 0) := by
  induction k with
  | zero => rfl
  | succ m ih =>
    simp [LazyArray.accessSeq, LazyArray.cachedArray, LazyArray.invokes, ih,
      List.replicate_succ]

/-- C9: for a `LazyArray` whose producer yields a (non-`None`) array, any
sequence of `k ≥ 1` value accesses invokes the producer exactly once, every
access returns the identical cached array, and `view`/`reshape` on the
cached state delegate to that same cached array without recomputation. -/
theorem c9_lazy_producer_invoked_once (shape : List Nat)
    (f : Unit → Except PyError (Option NDArray)) (a : NDArray)
    (hf : f () = .ok (some a)) :
    (∀ k, 1 ≤ k →
      LazyArray.accessSeq k (LazyArray.make shape f) =
        .ok (List.replicate k (some a),
             ({ shape := shape, func := none, arr := some a } : LazyArray NDArray), 1)) ∧
    LazyArray.view { shape := shape, func := none, arr := some a } =
      .ok (a, { shape := shape, func := none, arr := some a }) ∧
    ∀ ns, a.shape.prod = ns.prod →
      LazyArray.reshapeL { shape := shape, func := none, arr := some a } ns =
        .ok (setShape a ns, { shape := shape, func := none, arr := some a }) := by
  refine ⟨?_, rfl, ?_⟩
  · intro k hk
    obtain ⟨m, rfl⟩ : ∃ m, k = m + 1 := ⟨k - 1, by omega⟩
    simp [LazyArray.accessSeq, LazyArray.make, LazyArray.cachedArray, hf, LazyArray.invokes,
      accessSeq_of_cached, List.replicate_succ]
  · intro ns hns
    simp [LazyArray.reshapeL, LazyArray.cachedArray, hns]

/-- C9 witness: the producer of `c9producer` yields an array, so the theorem
applies to it. -/
theorem c9_witness :
    (c9producer () = .ok (some ({ shape := [1], data := fun _ => 7 } : NDArray))) ∧
    ((∀ k, 1 ≤ k →
      LazyArray.accessSeq k (LazyArray.make [1] c9producer) =
        .ok (List.replicate k (some ({ shape := [1], data := fun _ => 7 } : NDArray)),
             ({ shape := [1], func := none,
                arr := some ({ shape := [1], data := fun _ => 7 } : NDArray) } : LazyArray NDArray), 1)) ∧
    LazyArray.view { shape := [1], func := none,
                     arr := some ({ shape := [1], data := fun _ => 7 } : NDArray) } =
      .ok ({ shape := [1], data := fun _ => 7 },
           { shape := [1], func := none, arr := some { shape := [1], data := fun _ => 7 } }) ∧
    ∀ ns, ([1] : List Nat).prod = ns.prod →
      LazyArray.reshapeL { shape := [1], func := none,
                           arr := some ({ shape := [1], data := fun _ => 7 } : NDArray) } ns =
        .ok (setShape { shape := [1], data := fun _ => 7 } ns,
             { shape := [1], func := none, arr := some { shape := [1], data := fun _ => 7 } })) :=
  ⟨rfl, c9_lazy_producer_invoked_once [1] c9producer { shape := [1], data := fun _ => 7 } rfl⟩

set_option maxRecDepth 40000 in
/-- C5: remapping the points of a (4,3) coordinate assigned to host
dimensions [3,2] at target rank 5 yields shape (1,1,3,4,1), and each value
is the pure axis permutation of the original points. -/
theorem c5_nd_points_broadcast (pdata bdata : List Nat → ℤ) (u : Units) (i j : Nat)
    (hi : i < 3) (hj : j < 4) :
    (ndPoints { id := 0, shape := [4, 3], pointsData := pdata, nbounds := 0,
                boundsData := bdata, units := u } [3, 2] 5).shape = [1, 1, 3, 4, 1] ∧
    (ndPoints { id := 0, shape := [4, 3], pointsData := pdata, nbounds := 0,
                boundsData := bdata, units := u } [3, 2] 5).data [0, 0, i, j, 0] =
      pdata [j, i] := by
  refine ⟨rfl, ?_⟩
  simp [ndPoints, transposeOrder, sortByKey, insertByKey, setDims, transpose, setShape,
    unflatten, rowMajor, indexOfNat, Coord.pointsArr, List.range_succ]
  congr 1
  have h1 : (i * 4 + j) % 4 = j := by omega
  have h2 : (i * 4 + j) / 4 % 3 = i := by omega
  rw [h1, h2]

/-- C5 witness: the remap of `c5coord` at index (0,0,1,2,0) reads point
(2,1). -/
theorem c5_witness :
    ((1 : Nat) < 3 ∧ (2 : Nat) < 4) ∧
    ((ndPoints { id := 0, shape := [4, 3], pointsData := c5coord.pointsData, nbounds := 0,
                 boundsData := c5coord.boundsData, units := metre } [3, 2] 5).shape =
        [1, 1, 3, 4, 1] ∧
     (ndPoints { id := 0, shape := [4, 3], pointsData := c5coord.pointsData, nbounds := 0,
                 boundsData := c5coord.boundsData, units := metre } [3, 2] 5).data
        [0, 0, 1, 2, 0] = c5coord.pointsData [2, 1]) :=
  ⟨⟨by decide, by decide⟩,
   c5_nd_points_broadcast c5coord.pointsData c5coord.boundsData metre 1 2 (by decide) (by decide)⟩

/-- C6: remapping the bounds of a (70,) coordinate with 2 bounds assigned
to host dimension [3] at target rank 5 yields shape (1,1,1,70,1,2), with the
bounds axis kept last and unreordered. -/
theorem c6_nd_bounds_broadcast (pdata bdata : List Nat → ℤ) (u : Units) (i b : Nat)
    (hi : i < 70) (hb : b < 2) :
    (ndBounds { id := 0, shape := [70], pointsData := pdata, nbounds := 2,
                boundsData := bdata, units := u } [3] 5).shape = [1, 1, 1, 70, 1, 2] ∧
    (ndBounds { id := 0, shape := [70], pointsData := pdata, nbounds := 2,
                boundsData := bdata, units := u } [3] 5).data [0, 0, 0, i, 0, b] =
      bdata [i, b] := by
  refine ⟨rfl, ?_⟩
  simp [ndBounds, transposeOrder, sortByKey, insertByKey, setDims, transpose, setShape,
    unflatten, rowMajor, indexOfNat, Coord.boundsArr, List.range_succ]
  congr 1
  have h1 : (i * 2 + b) / 2 % 70 = i := by omega
  have h2 : (i * 2 + b) % 2 = b := by omega
  rw [h1, h2]

/-- C6 witness: the bounds remap of `c6coord` at index (0,0,0,13,0,1) reads
bound (13,1). -/
theorem c6_witness :
    ((13 : Nat) < 70 ∧ (1 : Nat) < 2) ∧
    ((ndBounds { id := 0, shape := [70], pointsData := c6coord.pointsData, nbounds := 2,
                 boundsData := c6coord.boundsData, units := metre } [3] 5).shape =
        [1, 1, 1, 70, 1, 2] ∧
     (ndBounds { id := 0, shape := [70], pointsData := c6coord.pointsData, nbounds := 2,
                 boundsData := c6coord.boundsData, units := metre } [3] 5).data
        [0, 0, 0, 13, 0, 1] = c6coord.boundsData [13, 1]) :=
  ⟨⟨by decide, by decide⟩,
   c6_nd_bounds_broadcast c6coord.pointsData c6coord.boundsData metre 13 1 (by decide) (by decide)⟩

/-- C1: evaluating the code at the failing input.  With delta = 2, sigma = 1
and surface = 3 bound and the reference pressure absent, `_remap` substitutes
the numeric scalar 0 for the absent reference, so `_derive` materializes
`0 * 2 + 1 * 3 = 3` and not the documented `delta + sigma * surface = 5`. -/
theorem c1_absent_reference_multiplies_delta_by_zero :
    pointsValueAt (hpMakeCoord c1factory c1dims) [0] = some (0 * 2 + 1 * 3) ∧
    pointsValueAt (hpMakeCoord c1factory c1dims) [0] ≠ some (2 + 1 * 3) := by
  constructor
  · decide
  · decide

/-- C2: evaluating the code at the failing input.  The dependency set
delta/sigma/surface (pressure units, dimensionless sigma, no bounds)
violates none of the validation rules, yet construction raises: the final
statement of the `@staticmethod _check_dependencies` is
`self.attributes = ...` with no `self` in scope, a `NameError`. -/
theorem c2_valid_dependencies_still_raise :
    hpValidationRuleFails (some c1delta) (some c1sigma) (some c1surf) none = false ∧
    hybridPressureFactoryInit (some c1delta) (some c1sigma) (some c1surf) none =
      .error (.nameError "global name self is not defined") :=
  ⟨rfl, rfl⟩

/-- C7 counterexample: a hybrid-height factory whose orography carries
bounds (a present, bounded dependency) while delta and sigma are unbounded
gets no bounds array from `make_coord`, contradicting the claim that any
bounded present dependency triggers one. -/
theorem c7_counterexample_bounded_orography_alone :
    c7factory.orography = some c7orog ∧ c7orog.nbounds = 2 ∧
    (hhMakeCoord c7factory c78dims).bounds = none :=
  ⟨rfl, rfl, rfl⟩

/-- C7 amended: `make_coord` attaches a lazy bounds array if and only if
the delta or the sigma role is present and bounded; a bounded orography,
surface-pressure or reference-pressure role alone does not trigger it. -/
theorem c7_amended_bounds_iff_delta_or_sigma_bounded :
    (∀ (fac : HybridHeightFactory) (f : Coord → List Nat),
      ((hhMakeCoord fac f).bounds).isSome =
        (fac.delta.any (fun c => c.nbounds != 0) || fac.sigma.any (fun c => c.nbounds != 0))) ∧
    (∀ (fac : HybridPressureFactory) (f : Coord → List Nat),
      ((hpMakeCoord fac f).bounds).isSome =
        (fac.delta.any (fun c => c.nbounds != 0) || fac.sigma.any (fun c => c.nbounds != 0))) := by
  constructor
  · intro fac f
    cases h : fac.delta.any (fun c => c.nbounds != 0) || fac.sigma.any (fun c => c.nbounds != 0) <;>
      simp [hhMakeCoord, h]
  · intro fac f
    cases h : fac.delta.any (fun c => c.nbounds != 0) || fac.sigma.any (fun c => c.nbounds != 0) <;>
      simp [hpMakeCoord, h]

/-- C8 counterexample: with a bounded delta and a bounded 2-point orography
the bounds pipeline warns and then, because `list.append` returns `None`
into `reshape`, materialization of the derived bounds raises a `ValueError`
instead of completing with the points-collapsed orography. -/
theorem c8_counterexample_collapse_path_raises :
    (hhCalcBounds (hhNdValuesByKey c8factory c78dims).1 (hhNdValuesByKey c8factory c78dims).2.1
        (hhNdValuesByKey c8factory c78dims).2.2 (hhNdPointsByKey c8factory c78dims).2.2).1 =
      ["Orography coordinate has bounds. These are being disregarded."] ∧
    c8boundsOutcome =
      some (.error (.valueError "total size of new array must be unchanged")) :=
  ⟨rfl, rfl⟩

/-- C8 amended: on the disregard path (a bounded orography or
surface-pressure role while delta/sigma bound shapes are acceptable) a
warning is emitted, and whenever the bounded role's points array has more
than one element the collapse is defective — `reshape` receives the `None`
returned by `list.append` — so materialization raises a `ValueError`
instead of completing. -/
theorem c8_amended_disregard_path_raises (delta sigma orography orography_pts
      reference reference_pts : NDArray)
    (hd : lastSlice delta.shape ∈ [([] : List Nat), [1], [2]])
    (hs : lastSlice sigma.shape ∈ [([] : List Nat), [1], [2]])
    (ho : lastSlice orography.shape ∉ [([] : List Nat), [1]])
    (hp : orography_pts.shape.prod ≠ 1) :
    hhCalcBounds delta sigma orography orography_pts =
      (["Orography coordinate has bounds. These are being disregarded."],
       .error (.valueError "total size of new array must be unchanged")) ∧
    hpCalcBounds delta sigma orography reference orography_pts reference_pts =
      (["Surface pressure coordinate has bounds. These are being disregarded."],
       .error (.valueError "total size of new array must be unchanged")) := by
  constructor
  · simp [hhCalcBounds, hd, hs, ho, reshapeNone, hp]
  · simp [hpCalcBounds, hd, hs, ho, reshapeNone, hp]

/-- C8 amended-claim witness at concrete (2,2)-bounded arrays. -/
theorem c8_witness :
    (lastSlice c8wDelta.shape ∈ [([] : List Nat), [1], [2]] ∧
     lastSlice c8wSigma.shape ∈ [([] : List Nat), [1], [2]] ∧
     lastSlice c8wOrog.shape ∉ [([] : List Nat), [1]] ∧
     c8wOrogPts.shape.prod ≠ 1) ∧
    (hhCalcBounds c8wDelta c8wSigma c8wOrog c8wOrogPts =
      (["Orography coordinate has bounds. These are being disregarded."],
       .error (.valueError "total size of new array must be unchanged")) ∧
     hpCalcBounds c8wDelta c8wSigma c8wOrog c8wSigma c8wOrogPts c8wSigma =
      (["Surface pressure coordinate has bounds. These are being disregarded."],
       .error (.valueError "total size of new array must be unchanged"))) :=
  ⟨⟨by decide, by decide, by decide, by decide⟩,
   c8_amended_disregard_path_raises c8wDelta c8wSigma c8wOrog c8wOrogPts c8wSigma c8wSigma
     (by decide) (by decide) (by decide) (by decide)⟩

/-- C4 counterexample: a hybrid-pressure factory with all four roles bound
(dimensionless delta, as required alongside a reference pressure).
Removing the reference pressure leaves delta present, so the
minimum-dependency rule still holds, yet `update` re-runs the full
validation on the prospective set and raises because delta and surface no
longer match in units. -/
theorem c4_counterexample_removing_reference_raises :
    c4factory.delta.isSome = true ∧
    hpUpdate c4factory c4reference none =
      .error (.valueError "Failed to update dependencies. Incompatible units: delta and surface_air_pressure must have the same units.") :=
  ⟨rfl, rfl⟩

/-- C4 amended: for hybrid-height factories the claim holds — removing a
bound dependency whose absence keeps the minimum-dependency rule satisfied
never raises, clears exactly the matched role, and leaves the other roles
untouched. -/
theorem c4_amended_height_removal_is_safe (fac : HybridHeightFactory) (old : Coord) :
    (roleIs fac.delta old = true → fac.orography.isSome = true →
      hhUpdate fac old none = .ok { fac with delta := none }) ∧
    (roleIs fac.delta old = false → roleIs fac.sigma old = true →
      (fac.delta.isSome || fac.orography.isSome) = true →
      hhUpdate fac old none = .ok { fac with sigma := none }) ∧
    (roleIs fac.delta old = false → roleIs fac.sigma old = false →
      roleIs fac.orography old = true → fac.delta.isSome = true →
      hhUpdate fac old none = .ok { fac with orography := none }) := by
  refine ⟨fun h1 _ => ?_, fun h1 h2 _ => ?_, fun h1 h2 h3 _ => ?_⟩
  · simp [hhUpdate, h1]
  · simp [hhUpdate, h1, h2]
  · simp [hhUpdate, h1, h2, h3]

/-- C4 amended-claim witness: removing the delta of `c7factory` (whose
orography remains) succeeds and clears only the delta role. -/
theorem c4_witness :
    (roleIs c7factory.delta c7delta = true ∧ c7factory.orography.isSome = true) ∧
    hhUpdate c7factory c7delta none = .ok { c7factory with delta := none } :=
  ⟨⟨rfl, rfl⟩, (c4_amended_height_removal_is_safe c7factory c7delta).1 rfl rfl⟩

/-- C10: calling `update` with an `old_coord` that is not identical to any
bound dependency of either factory kind is a no-op: no exception, and every
role keeps the very coordinate (or absence) it had. -/
theorem c10_update_unmatched_is_noop (hf : HybridHeightFactory) (pf : HybridPressureFactory)
    (old : Coord) (new : Option Coord)
    (h1 : roleIs hf.delta old = false) (h2 : roleIs hf.sigma old = false)
    (h3 : roleIs hf.orography old = false)
    (h4 : roleIs pf.delta old = false) (h5 : roleIs pf.sigma old = false)
    (h6 : roleIs pf.surface_air_pressure old = false)
    (h7 : roleIs pf.reference_air_pressure old = false) :
    hhUpdate hf old new = .ok hf ∧ hpUpdate pf old new = .ok pf := by
  constructor
  · simp [hhUpdate, h1, h2, h3]
  · simp only [hpUpdate, h4, h5, h6, h7, Bool.false_eq_true, if_false]
    rfl

/-- C10 witness: a coordinate with a fresh identity matches no role of
either concrete factory, and both updates return the factories unchanged. -/
theorem c10_witness :
    (roleIs c7factory.delta c10old = false ∧ roleIs c7factory.sigma c10old = false ∧
     roleIs c7factory.orography c10old = false ∧ roleIs c1factory.delta c10old = false ∧
     roleIs c1factory.sigma c10old = false ∧
     roleIs c1factory.surface_air_pressure c10old = false ∧
     roleIs c1factory.reference_air_pressure c10old = false) ∧
    (hhUpdate c7factory c10old none = .ok c7factory ∧
     hpUpdate c1factory c10old none = .ok c1factory) :=
  ⟨⟨rfl, rfl, rfl, rfl, rfl, rfl, rfl⟩,
   c10_update_unmatched_is_noop c7factory c1factory c10old none rfl rfl rfl rfl rfl rfl rfl⟩

/-- Setting the last entry of a list of `d + 1` ones. -/
theorem set_replicate_last (d n : Nat) :
    (List.replicate (d + 1) 1).set d n = List.replicate d 1 ++ [n] := by
  induction d with
  | zero => rfl
  | succ k ih =>
    rw [List.replicate_succ]
    show 1 :: (List.replicate (k + 1) 1).set k n = _
    rw [ih, List.replicate_succ]
    rfl

/-- A leading size-1 axis indexed at 0 does not move the row-major position. -/
theorem rowMajor_one_cons (ss is : List Nat) :
    rowMajor (1 :: ss) (0 :: is) = rowMajor ss is := rfl

/-- Row-major position within `d` leading size-1 axes and one real axis. -/
theorem rowMajor_replicate (d n j : Nat) :
    rowMajor (List.replicate d 1 ++ [n]) (List.replicate d 0 ++ [j]) = j := by
  induction d with
  | zero => simp [rowMajor]
  | succ k ih =>
    rw [List.replicate_succ, List.replicate_succ, List.cons_append, List.cons_append,
      rowMajor_one_cons, ih]

/-- `unflatten` on a single axis. -/
theorem unflatten_single (n m : Nat) : unflatten [n] m = [m % n] := by
  simp [unflatten]

/-- `unflatten` on `d` leading size-1 axes and one real axis. -/
theorem unflatten_replicate (d n j : Nat) :
    unflatten (List.replicate d 1 ++ [n]) j = List.replicate d 0 ++ [j % n] := by
  induction d with
  | zero => simp [unflatten]
  | succ k ih =>
    simp [List.replicate_succ, unflatten, ih, Nat.mod_one]

/-- Reading position `d` of `d` ones followed by `n`. -/
theorem getD_replicate_append (d n : Nat) :
    (List.replicate d 1 ++ [n]).getD d 0 = n := by
  induction d with
  | zero => rfl
  | succ k ih =>
    rw [List.replicate_succ, List.cons_append]
    show (List.replicate k 1 ++ [n]).getD k 0 = n
    exact ih

/-- Row-major position within a single axis. -/
theorem rowMajor_single (n j : Nat) : rowMajor [n] [j] = j := by
  simp [rowMajor]

/-- The points remap of a 1-dimensional coordinate of size `n` assigned to
the single host dimension `d`: the narrowed array is value-identical to the
coordinate's points. -/
theorem remapDep_one_dim (c : Coord) (n d : Nat) (hs : c.shape = [n]) :
    (remapDep (some c) [d] [d] (d + 1)).shape = [n] ∧
    ∀ j, j < n → (remapDep (some c) [d] [d] (d + 1)).data [j] = c.pointsData [j] := by
  have hto : transposeOrder [d] = [0] := rfl
  have hnd : setDims (List.replicate (d + 1) 1) [d] [n] = List.replicate d 1 ++ [n] := by
    show (List.replicate (d + 1) 1).set d n = _
    exact set_replicate_last d n
  constructor
  · simp [remapDep, ndPoints, setShape, hs, hnd, getD_replicate_append]
  · intro j hj
    have hmod : j % n = j := Nat.mod_eq_of_lt hj
    simp [remapDep, ndPoints, setShape, transpose, Coord.pointsArr, hs, hto, hnd,
      getD_replicate_append, rowMajor_single, unflatten_replicate, hmod, rowMajor_replicate,
      unflatten_single, indexOfNat, List.range_succ]

/-- `derived_dims` with three present coordinates over the same single host
dimension. -/
theorem derivedDims_three_same (c1 c2 c3 : Coord) (f : Coord → List Nat) (d : Nat)
    (h1 : f c1 = [d]) (h2 : f c2 = [d]) (h3 : f c3 = [d]) :
    derivedDims [c1, c2, c3] f = [d] := by
  simp [derivedDims, h1, h2, h3, sortByKey, insertByKey, dedupSorted, Nat.lt_irrefl]

/-- An elementwise operation on two arrays of the same 1-dimensional shape
succeeds and acts pointwise. -/
theorem ewise_same_shape (op : ℤ → ℤ → ℤ) (a b : NDArray) (n : Nat)
    (ha : a.shape = [n]) (hb : b.shape = [n]) :
    ∃ r, ewise op a b = .ok r ∧ r.shape = [n] ∧
      ∀ j, j < n → r.data [j] = op (a.data [j]) (b.data [j]) := by
  have hbs : broadcastShapes [n] [n] = some [n] := by simp [broadcastShapes, bshapesR]
  refine ⟨{ shape := [n],
            data := fun idx => op (a.data (bindex [n] idx)) (b.data (bindex [n] idx)) },
          ?_, rfl, ?_⟩
  · simp [ewise, ha, hb, hbs]
  · intro j hj
    have hbi : bindex [n] [j] = [j] := by
      have hone : (if n = 1 then 0 else j) = j := by split <;> omega
      simp [bindex, hone]
    simp [hbi]

/-- `HybridHeightFactory._derive` on three arrays of the same
1-dimensional shape computes `delta + sigma * orography` pointwise. -/
theorem hhDerive_one_dim (a b c : NDArray) (n : Nat)
    (ha : a.shape = [n]) (hb : b.shape = [n]) (hc : c.shape = [n]) :
    ∃ r, hhDerive a b c = .ok r ∧ r.shape = [n] ∧
      ∀ j, j < n → r.data [j] = a.data [j] + b.data [j] * c.data [j] := by
  obtain ⟨r1, he1, hs1, hd1⟩ := ewise_same_shape (· * ·) b c n hb hc
  obtain ⟨r2, he2, hs2, hd2⟩ := ewise_same_shape (· + ·) a r1 n ha hs1
  refine ⟨r2, ?_, hs2, ?_⟩
  · simp only [hhDerive]
    rw [he1]
    exact he2
  · intro j hj
    rw [hd2 j hj, hd1 j hj]

/-- C3: a hybrid-height factory constructed from unbounded delta, sigma and
orography coordinates of one common size over one common host dimension
succeeds; the derived coordinate carries delta's units and the attributes
`positive: up`, and its materialized points are elementwise
`delta + sigma * orography`. -/
theorem c3_hybrid_height_end_to_end (dl sg og : Coord) (n d : Nat) (f : Coord → List Nat)
    (hds : dl.shape = [n]) (hss : sg.shape = [n]) (hos : og.shape = [n])
    (hdb : dl.nbounds = 0) (hsb : sg.nbounds = 0) (hob : og.nbounds = 0)
    (hu : dl.units = og.units) (hconv : dl.units.is_convertible metre = true)
    (hfd : f dl = [d]) (hfs : f sg = [d]) (hfo : f og = [d]) :
    ∃ fac : HybridHeightFactory,
      hybridHeightFactoryInit (some dl) (some sg) (some og) = .ok fac ∧
      fac.units = dl.units ∧
      (hhMakeCoord fac f).units = dl.units ∧
      (hhMakeCoord fac f).attributes = [("positive", "up")] ∧
      ∃ arr : NDArray,
        materializedPoints (hhMakeCoord fac f) = some arr ∧
        arr.shape = [n] ∧
        ∀ j, j < n →
          arr.data [j] = dl.pointsData [j] + sg.pointsData [j] * og.pointsData [j] := by
  refine ⟨{ delta := some dl, sigma := some sg, orography := some og,
            standard_name := "altitude", units := dl.units,
            attributes := [("positive", "up")], long_name := none, var_name := none },
          ?_, rfl, rfl, rfl, ?_⟩
  · have hconv2 : og.units.is_convertible metre = true := hu ▸ hconv
    simp [hybridHeightFactoryInit, badBoundsCount, hdb, hsb, hu, hconv, hconv2]
  · have hder : hhDerivedDims
        { delta := some dl, sigma := some sg, orography := some og,
          standard_name := "altitude", units := dl.units,
          attributes := [("positive", "up")], long_name := none, var_name := none } f = [d] := by
      simp only [hhDerivedDims]
      show derivedDims [dl, sg, og] f = [d]
      exact derivedDims_three_same dl sg og f d hfd hfs hfo
    have hndim : ndimOf [d] = d + 1 := by simp [ndimOf]
    have hkey : hhNdPointsByKey
        { delta := some dl, sigma := some sg, orography := some og,
          standard_name := "altitude", units := dl.units,
          attributes := [("positive", "up")], long_name := none, var_name := none } f =
        (remapDep (some dl) [d] [d] (d + 1), remapDep (some sg) [d] [d] (d + 1),
         remapDep (some og) [d] [d] (d + 1)) := by
      simp [hhNdPointsByKey, hder, hndim, hfd, hfs, hfo]
    obtain ⟨hsA, hdA⟩ := remapDep_one_dim dl n d hds
    obtain ⟨hsB, hdB⟩ := remapDep_one_dim sg n d hss
    obtain ⟨hsC, hdC⟩ := remapDep_one_dim og n d hos
    obtain ⟨res, hres, hshape, hdata⟩ := hhDerive_one_dim _ _ _ n hsA hsB hsC
    have hcp : hhCalcPoints
        { delta := some dl, sigma := some sg, orography := some og,
          standard_name := "altitude", units := dl.units,
          attributes := [("positive", "up")], long_name := none, var_name := none } f =
        .ok res := by
      rw [hhCalcPoints, hkey]
      exact hres
    refine ⟨res, ?_, hshape, ?_⟩
    · simp [materializedPoints, hhMakeCoord, LazyArray.make, LazyArray.cachedArray, hcp,
        Except.map]
    · intro j hj
      rw [hdata j hj, hdA j hj, hdB j hj, hdC j hj]

/-- C3 witness at three concrete 2-point coordinates over host dimension 1. -/
theorem c3_witness :
    (c3delta.shape = [2] ∧ c3sigma.shape = [2] ∧ c3orog.shape = [2] ∧
     c3delta.nbounds = 0 ∧ c3sigma.nbounds = 0 ∧ c3orog.nbounds = 0 ∧
     c3delta.units = c3orog.units ∧ c3delta.units.is_convertible metre = true ∧
     c3dims c3delta = [1] ∧ c3dims c3sigma = [1] ∧ c3dims c3orog = [1]) ∧
    (∃ fac : HybridHeightFactory,
      hybridHeightFactoryInit (some c3delta) (some c3sigma) (some c3orog) = .ok fac ∧
      fac.units = c3delta.units ∧
      (hhMakeCoord fac c3dims).units = c3delta.units ∧
      (hhMakeCoord fac c3dims).attributes = [("positive", "up")] ∧
      ∃ arr : NDArray,
        materializedPoints (hhMakeCoord fac c3dims) = some arr ∧
        arr.shape = [2] ∧
        ∀ j, j < 2 →
          arr.data [j] = c3delta.pointsData [j] + c3sigma.pointsData [j] * c3orog.pointsData [j]) :=
  ⟨⟨rfl, rfl, rfl, rfl, rfl, rfl, rfl, rfl, rfl, rfl, rfl⟩,
   c3_hybrid_height_end_to_end c3delta c3sigma c3orog 2 1 c3dims
     rfl rfl rfl rfl rfl rfl rfl rfl rfl rfl rfl⟩

end Iris
